import Mathlib

/-!
# Verification of the `inovo-rs` reversible-operation context machine

A shallow embedding, in Lean 4, of the command/instruction protocol layer of
the `inovo-rs` crate: the data model (`MotionParam`, `JointCoord`,
`Transform`, poses, robot commands, instructions), the scalar and pose
response decoders, the RAII context-guard machinery, the built-in motion and
parameter contexts, and the command sequencer.

Conventions of the embedding:

* Rust `f64` values are modelled as `ℚ`.  All arithmetic the claims touch
  (clamping, unit scaling by 1000, pointwise negation and addition, decimal
  parsing) is exact on the rationals; IEEE rounding and the non-finite
  values (NaN, ±inf) are outside the model.
* The radians-to-degrees conversion (`rad_to_deg`, which involves π and is
  part of the out-of-scope geometry collaborator) and the cartesian pose
  inversion (the `nalgebra` isometry inverse) are abstracted as explicit
  function parameters; no claim depends on their values.
* Stateful Rust code (`&mut self` methods) becomes explicit state passing;
  fallible code returns `Except`.
* The blocking socket transport is modelled by a machine that holds the list
  of pending reply strings (replies are correlated purely by arrival order)
  and a log of the instructions written to the wire, in order.

The source tree mixes two revisions of the crate: `context/mod.rs` and
`robot/mod.rs` implement the newer, infallible `Context` trait
(`context_enter`/`context_drop`), while `geometry/mod.rs` and the context
half of `robot/motion_param.rs` implement an older trait
(`enter_fn`/`exit_fn`/`label`, returning `Result<(), String>`) whose trait
declaration, machine capabilities (`current_frame`, `current_joint`,
`push_param`, `pop_param`) and stack-based context machine are not present
in the tree.  Definitions for those missing parts are modelled from the
specification and carry a doc comment saying so.
-/

namespace InovoRs

/-! ## Rust-style clamping on ℚ

`f64::clamp(min, max)` in Rust returns `min` if the receiver is below `min`,
`max` if it is above `max`, and the receiver otherwise (NaN, which has no
rational counterpart, is outside the model). -/

/-- Rust `f64::clamp` on rationals: pull `x` into the interval `[lo, hi]`. -/
def rustClamp (x lo hi : ℚ) : ℚ :=
  if x < lo then lo else if x > hi then hi else x

/-! ## `MotionParam` (src/robot/motion_param.rs)

Six numeric fields, each clamped into a fixed valid range by the constructor
and by every setter. -/

structure MotionParam where
  speed : ℚ
  accel : ℚ
  blend_linear : ℚ
  blend_angular : ℚ
  tcp_speed_linear : ℚ
  tcp_speed_angular : ℚ
deriving DecidableEq, Repr

namespace MotionParam

def DEFAULT_SPEED : ℚ := 50.0
def DEFAULT_ACCEL : ℚ := 50.0
def DEFAULT_BLEND_LINEAR : ℚ := 0.01
def DEFAULT_BLEND_ANGULAR : ℚ := 0.01
def DEFAULT_TCP_SPEED_LINEAR : ℚ := 1000.0
def DEFAULT_TCP_SPEED_ANGULAR : ℚ := 720.0

def MIN_PERCENT : ℚ := 0.01
def MAX_PERCENT : ℚ := 100.0
def MIN_LENGHT : ℚ := 0.01
def MAX_LENGHT : ℚ := 1000.0
def MIN_ANGLE : ℚ := 0.001
def MAX_ANGLE : ℚ := 720.0

/-- `MotionParam::clamp`: clamp every field into its range. -/
def clamp (p : MotionParam) : MotionParam where
  speed := rustClamp p.speed MIN_PERCENT MAX_PERCENT
  accel := rustClamp p.accel MIN_PERCENT MAX_PERCENT
  blend_linear := rustClamp p.blend_linear MIN_LENGHT MAX_LENGHT
  blend_angular := rustClamp p.blend_angular MIN_ANGLE MAX_ANGLE
  tcp_speed_linear := rustClamp p.tcp_speed_linear MIN_LENGHT MAX_LENGHT
  tcp_speed_angular := rustClamp p.tcp_speed_angular MIN_ANGLE MAX_ANGLE

/-- `MotionParam::new`: build from the six raw values, then clamp. -/
def new (speed accel blend_linear blend_angular
    tcp_speed_linear tcp_speed_angular : ℚ) : MotionParam :=
  clamp ⟨speed, accel, blend_linear, blend_angular,
    tcp_speed_linear, tcp_speed_angular⟩

/-- `MotionParam::set_speed`: overwrite the field, then clamp everything. -/
def set_speed (p : MotionParam) (percent : ℚ) : MotionParam :=
  clamp { p with speed := percent }

/-- `MotionParam::set_accel`. -/
def set_accel (p : MotionParam) (percent : ℚ) : MotionParam :=
  clamp { p with accel := percent }

/-- `MotionParam::set_blend_linear`. -/
def set_blend_linear (p : MotionParam) (mm : ℚ) : MotionParam :=
  clamp { p with blend_linear := mm }

/-- `MotionParam::set_blend_angular`. -/
def set_blend_angular (p : MotionParam) (degree : ℚ) : MotionParam :=
  clamp { p with blend_angular := degree }

/-- `MotionParam::set_tcp_speed_linear`. -/
def set_tcp_speed_linear (p : MotionParam) (mm : ℚ) : MotionParam :=
  clamp { p with tcp_speed_linear := mm }

/-- `MotionParam::set_tcp_speed_angular`. -/
def set_tcp_speed_angular (p : MotionParam) (degree : ℚ) : MotionParam :=
  clamp { p with tcp_speed_angular := degree }

/-- `Default for MotionParam`: `new` applied to the six default constants. -/
def default : MotionParam :=
  new DEFAULT_SPEED DEFAULT_ACCEL DEFAULT_BLEND_LINEAR DEFAULT_BLEND_ANGULAR
    DEFAULT_TCP_SPEED_LINEAR DEFAULT_TCP_SPEED_ANGULAR

/-- The documented range invariant: every field lies in its fixed range. -/
def InRange (p : MotionParam) : Prop :=
  MIN_PERCENT ≤ p.speed ∧ p.speed ≤ MAX_PERCENT ∧
  MIN_PERCENT ≤ p.accel ∧ p.accel ≤ MAX_PERCENT ∧
  MIN_LENGHT ≤ p.blend_linear ∧ p.blend_linear ≤ MAX_LENGHT ∧
  MIN_ANGLE ≤ p.blend_angular ∧ p.blend_angular ≤ MAX_ANGLE ∧
  MIN_LENGHT ≤ p.tcp_speed_linear ∧ p.tcp_speed_linear ≤ MAX_LENGHT ∧
  MIN_ANGLE ≤ p.tcp_speed_angular ∧ p.tcp_speed_angular ≤ MAX_ANGLE

instance (p : MotionParam) : Decidable p.InRange := by
  unfold InRange; infer_instance

end MotionParam

/-! ## Geometry value types (src/geometry/joint.rs, src/geometry/transform.rs) -/

/-- A 6-joint coordinate, in degrees (`JointCoord`). -/
structure JointCoord where
  j1 : ℚ
  j2 : ℚ
  j3 : ℚ
  j4 : ℚ
  j5 : ℚ
  j6 : ℚ
deriving DecidableEq, Repr

namespace JointCoord

/-- `JointCoord::new`. -/
def new (j1 j2 j3 j4 j5 j6 : ℚ) : JointCoord := ⟨j1, j2, j3, j4, j5, j6⟩

/-- `JointCoord::identity`: all six joints zero. -/
def identity : JointCoord := new 0 0 0 0 0 0

/-- `Neg for JointCoord`: the source negates every entry of `into_array()`
and rebuilds; written here field by field, which is the same pointwise map. -/
def neg (j : JointCoord) : JointCoord :=
  ⟨-j.j1, -j.j2, -j.j3, -j.j4, -j.j5, -j.j6⟩

instance : Neg JointCoord := ⟨neg⟩

/-- `Add for JointCoord`: pointwise addition of the two 6-entry arrays. -/
def add (a b : JointCoord) : JointCoord :=
  ⟨a.j1 + b.j1, a.j2 + b.j2, a.j3 + b.j3,
    a.j4 + b.j4, a.j5 + b.j5, a.j6 + b.j6⟩

instance : Add JointCoord := ⟨add⟩

/-- `From<Vec<f64>> for JointCoord`: take the first six entries, each
missing entry defaulting to zero. -/
def ofList (v : List ℚ) : JointCoord :=
  ⟨(v.get? 0).getD 0, (v.get? 1).getD 0, (v.get? 2).getD 0,
    (v.get? 3).getD 0, (v.get? 4).getD 0, (v.get? 5).getD 0⟩

end JointCoord

/-- A 3D transformation: translation in mm, orientation as euler angles in
degrees (`Transform`).  The genuinely geometric operations of the source
(`Mul`, `inverse` via the `nalgebra` isometry algebra) belong to the
out-of-scope geometry collaborator and are not modelled; the claims never
evaluate them. -/
structure Transform where
  x : ℚ
  y : ℚ
  z : ℚ
  rx : ℚ
  ry : ℚ
  rz : ℚ
deriving DecidableEq, Repr

namespace Transform

/-- `Transform::new`. -/
def new (x y z rx ry rz : ℚ) : Transform := ⟨x, y, z, rx, ry, rz⟩

/-- `Transform::identity`. -/
def identity : Transform := new 0 0 0 0 0 0

end Transform

/-! ## The command model (src/iva/mod.rs) -/

/-- `MotionType`: the four motion modes.  `linear`/`joint` are the absolute
modes (called AbsoluteLinear/AbsoluteJoint in the specification),
`linearRelative`/`jointRelative` the relative ones. -/
inductive MotionType where
  | linear
  | linearRelative
  | joint
  | jointRelative
deriving DecidableEq, Repr

/-- `Pose`: a joint-space or cartesian pose. -/
inductive Pose where
  | joint (j : JointCoord)
  | transform (t : Transform)
deriving DecidableEq, Repr

/-- `RobotCommand`: one thing the robot can be told to do.  (`param` is the
spec's `SetParameter`, `sync` its `Synchronize`.) -/
inductive RobotCommand where
  | motion (motion_type : MotionType) (pose : Pose)
  | param (p : MotionParam)
  | sleep (second : ℚ)
  | sync
deriving DecidableEq, Repr

/-! ## `CommandSequence` (src/robot/command_sequence.rs) -/

/-- An ordered, append-only list of robot commands, executed as one batch. -/
structure CommandSequence where
  seq : List RobotCommand
deriving DecidableEq, Repr

namespace CommandSequence

/-- `CommandSequence::new`: the empty sequence. -/
def new : CommandSequence := ⟨[]⟩

/-- `CommandSequence::then`: append one robot command. -/
def then_ (cs : CommandSequence) (robot_command : RobotCommand) :
    CommandSequence :=
  ⟨cs.seq ++ [robot_command]⟩

/-- `CommandSequence::then_sleep`. -/
def then_sleep (cs : CommandSequence) (second : ℚ) : CommandSequence :=
  cs.then_ (.sleep second)

/-- `CommandSequence::then_sync`. -/
def then_sync (cs : CommandSequence) : CommandSequence :=
  cs.then_ .sync

/-- `CommandSequence::then_set_param`. -/
def then_set_param (cs : CommandSequence) (param : MotionParam) :
    CommandSequence :=
  cs.then_ (.param param)

/-- `IntoIterator` via the `Deref` to the underlying `Vec`: the commands
in sequence order. -/
def into_iter (cs : CommandSequence) : List RobotCommand := cs.seq

end CommandSequence

/-! ## The simulated machine driven by the built-in contexts

`MotionContext` (src/geometry/mod.rs) and `ParamContext`
(src/robot/motion_param.rs) are written against an `IvaRobot` trait exposing
`current_frame`, `current_joint`, `execute`, `push_param` and `pop_param`.
That trait revision is not in the tree, so the machine behind those
capabilities is modelled from the specification (§3 ParamStack, §4.4, §6):
a simulated robot holding its current poses, the independent parameter
stack with its default fallback, and an ordered log of every
`RobotCommand` sent.  All capabilities are total on the simulated machine,
so the `Result<(), String>` plumbing of the source contexts (which only
propagates capability failures) collapses to plain success. -/

structure SimRobot where
  /-- current cartesian pose, read by the `current_frame` capability -/
  frame : Transform
  /-- current joint pose, read by the `current_joint` capability -/
  jointc : JointCoord
  /-- the machine's independent LIFO list of MotionParam snapshots
  (spec §3 `ParamStack`), top at the head -/
  paramStack : List MotionParam
  /-- the machine's default `MotionParam` (spec §4.4) -/
  defaultParam : MotionParam
  /-- ordered log of every command sent over the wire -/
  executed : List RobotCommand
deriving DecidableEq, Repr

namespace SimRobot

/-- Modelled from the spec: the `current_pose` capability for the cartesian
kind (§6 `current_pose(kind)`), total on the simulated machine. -/
def current_frame (r : SimRobot) : Transform := r.frame

/-- Modelled from the spec: the `current_pose` capability for the joint
kind (§6 `current_pose(kind)`), total on the simulated machine. -/
def current_joint (r : SimRobot) : JointCoord := r.jointc

/-- Modelled from the spec: the `send_command` capability (§6); the
simulated machine appends the command to its wire log. -/
def execute (r : SimRobot) (c : RobotCommand) : SimRobot :=
  { r with executed := r.executed ++ [c] }

/-- Modelled from the spec (§4.4 enter): if the ParamStack is empty, push
the machine's default MotionParam first (so a later pop always has a
fallback); push the new snapshot; send `SetParameter(new snapshot)`. -/
def push_param (r : SimRobot) (p : MotionParam) : SimRobot :=
  let stack := if r.paramStack.isEmpty then [r.defaultParam] else r.paramStack
  let r := { r with paramStack := p :: stack }
  r.execute (.param p)

/-- Modelled from the spec (§4.4 exit): pop the ParamStack; send
`SetParameter(new top, or default if now empty)`. -/
def pop_param (r : SimRobot) : SimRobot :=
  let stack := r.paramStack.tail
  let r := { r with paramStack := stack }
  r.execute (.param (stack.headD r.defaultParam))

end SimRobot

/-! ## `MotionContext` (src/geometry/mod.rs) -/

/-- A context for motion management: when exited it reverses the motion. -/
structure MotionContext where
  motion_type : MotionType
  pose : Pose
deriving DecidableEq, Repr

namespace MotionContext

/-- `MotionContext::new`. -/
def new (motion_type : MotionType) (pose : Pose) : MotionContext :=
  ⟨motion_type, pose⟩

/-- `enter_fn` of `Context for MotionContext`: for an absolute mode, read
the current pose of the kind matching the target pose, execute the motion,
then remember the read pose; for a relative mode, execute the motion, then
remember the negated delta.  `tneg` is the cartesian pose inversion
(`Neg for Transform`, the `nalgebra` isometry inverse — an out-of-scope
geometry collaborator), passed as a parameter. -/
def enter_fn (tneg : Transform → Transform) (mc : MotionContext)
    (r : SimRobot) : MotionContext × SimRobot :=
  match mc.motion_type with
  | .joint | .linear =>
    let pose : Pose := match mc.pose with
      | .joint _ => .joint r.current_joint
      | .transform _ => .transform r.current_frame
    let r := r.execute (.motion mc.motion_type mc.pose)
    ({ mc with pose := pose }, r)
  | .jointRelative | .linearRelative =>
    let r := r.execute (.motion mc.motion_type mc.pose)
    let pose : Pose := match mc.pose with
      | .joint j => .joint (-j)
      | .transform t => .transform (tneg t)
    ({ mc with pose := pose }, r)

/-- `exit_fn` of `Context for MotionContext`: execute a motion of the same
mode towards the remembered pose. -/
def exit_fn (mc : MotionContext) (r : SimRobot) : MotionContext × SimRobot :=
  (mc, r.execute (.motion mc.motion_type mc.pose))

end MotionContext

/-! ## `ParamContext` (src/robot/motion_param.rs) -/

/-- A context for motion-parameter management: push a parameter snapshot on
enter, pop it (restoring the previous one) on exit. -/
structure ParamContext where
  param : MotionParam
deriving DecidableEq, Repr

namespace ParamContext

/-- `ParamContext::new`. -/
def new (param : MotionParam) : ParamContext := ⟨param⟩

/-- `enter_fn` of `Context for ParamContext`: `t.push_param(&self.param)`. -/
def enter_fn (pc : ParamContext) (r : SimRobot) : ParamContext × SimRobot :=
  (pc, r.push_param pc.param)

/-- `exit_fn` of `Context for ParamContext`: `t.pop_param()`. -/
def exit_fn (pc : ParamContext) (r : SimRobot) : ParamContext × SimRobot :=
  (pc, r.pop_param)

end ParamContext

/-! ## The RAII context guard (src/context/mod.rs)

The `Context<T>` trait of the tree's newer revision: an infallible
`context_enter(&mut self, machine)` run when a `ContextGuard` is created and
an infallible `context_drop(&mut self, machine)` run when it is dropped.
Both mutate the context value and the machine, so they are modelled as
functions `C → M → C × M`. -/

structure RustContext (C M : Type) where
  /-- function executed when entering the context -/
  context_enter : C → M → C × M
  /-- function executed when exiting (dropping) the context -/
  context_drop : C → M → C × M

namespace ContextGuard

/-- The lifecycle of one `ContextGuard` scope: `ContextGuard::new` runs
`context_enter`; the body then uses the machine through the guard
(`Deref`/`DerefMut`); when the guard goes out of scope, `Drop` runs
`context_drop` on the context value as updated by the enter. -/
def run {C M : Type} (ctx : RustContext C M) (c : C) (body : M → M)
    (m : M) : M :=
  let s := ctx.context_enter c m
  let m2 := body s.2
  (ctx.context_drop s.1 m2).2

end ContextGuard

/-- An observable event of a context's enter or exit action, used to settle
ordering claims: the machine is a list of events and every action appends
its own label. -/
inductive CtxEvent where
  | enter (label : ℕ)
  | exits (label : ℕ)
deriving DecidableEq, Repr

/-- A context (in the sense of src/context/mod.rs) whose enter and exit
actions are observable: each appends a labelled event to the machine's
event log, like `Context1`/`Context2` in the module documentation of
src/context/mod.rs log their `start_up`/`clean_up` calls. -/
def logCtx (label : ℕ) : RustContext Unit (List CtxEvent) where
  context_enter := fun c m => (c, m ++ [.enter label])
  context_drop := fun c m => (c, m ++ [.exits label])

/-! ## The robot client (src/robot/mod.rs)

`Robot` talks to the remote controller over a blocking socket: `write` one
wire message, then `read` exactly one reply; replies are correlated purely
by arrival order.  The transport is modelled by the list of pending reply
strings plus an ordered log of the instructions written. -/

/-- `GetTarget`: what a `Get` instruction asks for.  Modelled from the spec
(§3, query targets) and the callers in src/robot/mod.rs
(`get_current_transform` / `get_current_joint` / `get_data`); the defining
`iva` revision is not in the tree. -/
inductive GetTarget where
  | transform
  | jointCoord
  | data (key : String)
deriving DecidableEq, Repr

/-- `Instruction` of the newer revision: one wire round trip.  Modelled
from the spec (§3: `Execute`, `Enqueue`, `Dequeue`, …) and the constructors
used by src/robot/mod.rs (`exec`, `exec_push`, `enqueue`, `dequeue`,
`dequeue_push`, `Pop`, `Get`); the defining `iva` revision is not in the
tree.  Only the variants the claims touch are included. -/
inductive Instruction where
  | exec (c : RobotCommand)
  | execPush (c : RobotCommand)
  | enqueue (c : RobotCommand)
  | dequeue
  | dequeuePush
  | pop
  | get (t : GetTarget)
deriving DecidableEq, Repr

/-- `RobotError` (src/robot/mod.rs): the error taxonomy surfaced to
callers.  The payloads of the wrapped external error types
(`std::io::Error`, `RosBridgeError`, `serde_json::Error`) are modelled as
their display strings. -/
inductive RobotError where
  | socketError (msg : String)
  | rosBridgeError (msg : String)
  | jsonSer (msg : String)
  | responseError (res : String)
deriving DecidableEq, Repr

/-- The robot client: pending replies (arrival order) and the ordered log
of instructions written to the wire. -/
structure IvaBot where
  replies : List String
  sent : List Instruction
deriving DecidableEq, Repr

namespace IvaBot

/-- `IvaRobot::instruction` for `Robot`: write the instruction to the
socket, then read one reply.  The write happens (and is logged)
unconditionally; reading with no reply available is a socket error. -/
def instruction (b : IvaBot) (inst : Instruction) :
    Except RobotError String × IvaBot :=
  let b := { b with sent := b.sent ++ [inst] }
  match b.replies with
  | [] => (.error (.socketError "connection closed"), b)
  | r :: rest => (.ok r, { b with replies := rest })

/-- `IvaRobot::instruction_assert_ok`: send and require the literal reply
`"OK"`; any other reply is a `ResponseError` carrying that reply. -/
def instruction_assert_ok (b : IvaBot) (inst : Instruction) :
    Except RobotError Unit × IvaBot :=
  match b.instruction inst with
  | (.ok res, b) => if res = "OK" then (.ok (), b)
      else (.error (.responseError res), b)
  | (.error e, b) => (.error e, b)

/-- `IvaRobot::instruction_return`: send and parse the reply with a
`FromRobot` decoder; a decode failure becomes `ResponseError` carrying the
decoder's error string. -/
def instruction_return {α : Type} (b : IvaBot)
    (from_robot : String → Except String α) (inst : Instruction) :
    Except RobotError α × IvaBot :=
  match b.instruction inst with
  | (.ok res, b) =>
    match from_robot res with
    | .ok t => (.ok t, b)
    | .error s => (.error (.responseError s), b)
  | (.error e, b) => (.error e, b)

/-- `IvaRobot::enqueue`: `instruction_assert_ok(Instruction::enqueue(cmd))`. -/
def enqueue (b : IvaBot) (c : RobotCommand) : Except RobotError Unit × IvaBot :=
  b.instruction_assert_ok (.enqueue c)

/-- `IvaRobot::dequeue`: `instruction_assert_ok(Instruction::dequeue())`. -/
def dequeue (b : IvaBot) : Except RobotError Unit × IvaBot :=
  b.instruction_assert_ok .dequeue

/-- `IvaRobot::pop`: `instruction_assert_ok(Instruction::Pop)`. -/
def pop (b : IvaBot) : Except RobotError Unit × IvaBot :=
  b.instruction_assert_ok .pop

/-- The `for` loop of `IvaRobot::sequence`: enqueue every command in
order — the `?` operator stops at the first failure — then dequeue the
whole batch. -/
def sequenceIter (b : IvaBot) :
    List RobotCommand → Except RobotError Unit × IvaBot
  | [] => b.dequeue
  | c :: rest =>
    match b.enqueue c with
    | (.ok _, b) => b.sequenceIter rest
    | (.error e, b) => (.error e, b)

/-- `IvaRobot::sequence`: run the loop over the sequence's iterator. -/
def sequence (b : IvaBot) (command_sequence : CommandSequence) :
    Except RobotError Unit × IvaBot :=
  b.sequenceIter command_sequence.into_iter

end IvaBot

/-- `IvaContext` (src/robot/mod.rs): the context pushed by the `with_*`
methods.  `context_enter` does nothing (the pushing instruction was already
sent); `context_drop` sends `Pop` and, being called from `Drop`, discards
the `Result` (`let _ = machine.pop();`). -/
def ivaContext : RustContext Unit IvaBot where
  context_enter := fun c m => (c, m)
  context_drop := fun c m => (c, (m.pop).2)

/-! ## Scalar reply decoding (`FromRobot` impls, src/robot/mod.rs)

`f64`/`i64` replies go through Rust's `str::parse`, with the standard
library's parse-error display string as the error; `bool` replies must be
the literal tokens `"True"`/`"False"`. -/

/-- Numeric value of a list of decimal digit characters. -/
def digitsToNat (ds : List Char) : ℕ :=
  ds.foldl (fun n c => 10 * n + (c.toNat - '0'.toNat)) 0

/-- Rust `str::split(sep)` on a single separator character: the (possibly
empty) chunks between occurrences of `sep`; an empty input yields one empty
chunk, like Rust. -/
def splitOnChar (sep : Char) : List Char → List (List Char)
  | [] => [[]]
  | c :: rest =>
    let r := splitOnChar sep rest
    if c = sep then [] :: r
    else (c :: r.headD []) :: r.tail

/-- Strip one optional leading sign: yields whether the value is negated
and the remaining characters. -/
def stripSign (cs : List Char) : Bool × List Char :=
  if cs.head? = some '+' then (false, cs.tail)
  else if cs.head? = some '-' then (true, cs.tail)
  else (false, cs)

/-- Rust `str::parse::<i64>`: optional sign, one or more ASCII digits,
value within the `i64` range.  The error strings are the display strings of
`std::num::ParseIntError`. -/
def parseI64 (s : String) : Except String Int :=
  if s.data.isEmpty then .error "cannot parse integer from empty string"
  else
    let sg := stripSign s.data
    if sg.2.isEmpty then .error "invalid digit found in string"
    else if sg.2.all Char.isDigit then
      let v : Int :=
        if sg.1 then -(digitsToNat sg.2 : Int) else (digitsToNat sg.2 : Int)
      if v > 2 ^ 63 - 1 then .error "number too large to fit in target type"
      else if v < -(2 ^ 63) then .error "number too small to fit in target type"
      else .ok v
    else .error "invalid digit found in string"

/-- The mantissa part of a decimal float literal: digits, an optional
point, optional fraction digits (at least one digit overall), yielding an
exact rational and the unconsumed remainder. -/
def parseDecimal (cs : List Char) : Option (ℚ × List Char) :=
  let intDigits := cs.takeWhile Char.isDigit
  let rest := cs.dropWhile Char.isDigit
  if rest.head? = some '.' then
    let rest2 := rest.tail
    let fracDigits := rest2.takeWhile Char.isDigit
    let rest3 := rest2.dropWhile Char.isDigit
    if intDigits.isEmpty ∧ fracDigits.isEmpty then none
    else some ((digitsToNat intDigits : ℚ) +
      (digitsToNat fracDigits : ℚ) / (10 : ℚ) ^ fracDigits.length, rest3)
  else if intDigits.isEmpty then none
  else some ((digitsToNat intDigits : ℚ), rest)

/-- The optional `e`/`E` exponent suffix of a decimal float. -/
def parseExponent (q : ℚ) (cs : List Char) : Option ℚ :=
  if cs.isEmpty then some q
  else if cs.head? = some 'e' ∨ cs.head? = some 'E' then
    let sg := stripSign cs.tail
    let ds := sg.2.takeWhile Char.isDigit
    let tail := sg.2.dropWhile Char.isDigit
    if ds.isEmpty ∨ ¬tail.isEmpty then none
    else some (q * (10 : ℚ) ^
      (if sg.1 then -(digitsToNat ds : ℤ) else (digitsToNat ds : ℤ)))
  else none

/-- Rust `str::parse::<f64>` on the finite decimal literals, exactly on ℚ:
optional sign, digits with optional point and fraction, optional exponent.
The non-finite literals (`inf`, `infinity`, `nan`) have no rational
counterpart and are outside the model.  The error strings are the display
strings of `std::num::ParseFloatError`. -/
def parseF64 (s : String) : Except String ℚ :=
  if s.data.isEmpty then .error "cannot parse float from empty string"
  else
    let sg := stripSign s.data
    match parseDecimal sg.2 with
    | some (q, rest) =>
      match parseExponent q rest with
      | some q => .ok (if sg.1 then -q else q)
      | none => .error "invalid float literal"
    | none => .error "invalid float literal"

/-- `FromRobot for f64`: `res.parse::<f64>().map_err(|e| format!("{}", e))`. -/
def fromRobotF64 (res : String) : Except String ℚ := parseF64 res

/-- `FromRobot for i64`: `res.parse::<i64>().map_err(|e| format!("{}", e))`. -/
def fromRobotI64 (res : String) : Except String Int := parseI64 res

/-- `FromRobot for bool`: the literal `"True"` is `true`, the literal
`"False"` is `false`, anything else is the error
`"unexpected response: {res}"`. -/
def fromRobotBool (res : String) : Except String Bool :=
  if res = "True" then .ok true
  else if res = "False" then .ok false
  else .error ("unexpected response: " ++ res)

/-- `FromRobot for String`: always succeeds with the raw reply. -/
def fromRobotString (res : String) : Except String String := .ok res

/-! ## Pose reply decoding
(src/geometry/transform.rs, src/geometry/joint.rs)

`From<String> for Transform` scans the reply from the first `r` character
up to the first closing brace, strips braces and spaces, splits the rest on
commas into `key:value` terms, keeps the parseable ones (converting metres
to millimetres for plain keys and radians to degrees for keys containing
`r`), collects them into a `HashMap` (a later duplicate key overwrites an
earlier one) and reads the fixed key set `x,y,z,rx,ry,rz` out of that map,
each missing key defaulting to zero.  `From<String> for JointCoord` reads
the first bracketed comma-separated list positionally, skipping
unparseable entries and converting radians to degrees.  Neither conversion
can fail, and the `FromRobot` impls for both types always return `Ok`.

`rad_to_deg` is referenced as `crate::geometry::rad_to_deg` but its
defining revision of `geometry/mod.rs` is not in the tree; per the spec
(§6, unit conversions are a geometry-collaborator capability) it is passed
as an explicit parameter. -/

/-- `HashMap::get(k).cloned().unwrap_or_default()` over the insertion
list: the value of the last inserted pair with key `k`, or zero. -/
def hashMapGetD (pairs : List (String × ℚ)) (k : String) : ℚ :=
  ((pairs.reverse.find? (fun p => p.1 = k)).map (fun p => p.2)).getD 0

/-- One `key:value` term of a transform reply (the body of the source's
`filter_map` closure): the term contributes `(key, value)` when it splits
on `:` as `key:value` with a parseable value, scaled ×1000 (m→mm) unless
the key contains `r`, in which case it is converted radians→degrees;
anything else contributes nothing. -/
def transformTerm (radToDeg : ℚ → ℚ) (term : List Char) :
    Option (String × ℚ) :=
  let t := splitOnChar ':' term
  (t.get? 0).bind (fun k =>
    (t.get? 1).bind (fun vs =>
      (parseF64 (String.mk vs)).toOption.map (fun v =>
        (String.mk k,
          if k.contains 'r' then radToDeg v else v * 1000))))

/-- The `key:value` terms of a transform reply: the characters from the
first `r` to before the first closing brace, with braces and spaces
removed, split on commas, each term handled by `transformTerm`. -/
def transformTerms (radToDeg : ℚ → ℚ) (s : String) : List (String × ℚ) :=
  let body := ((s.data.dropWhile (fun c => c ≠ 'r')).takeWhile
      (fun c => c ≠ '\x7d')).filter
      (fun c => c ≠ '\x7b' ∧ c ≠ '\x7d' ∧ c ≠ ' ')
  (splitOnChar ',' body).filterMap (transformTerm radToDeg)

/-- `From<String> for Transform`: collect the terms into a map and read
the keys `x,y,z,rx,ry,rz`, missing keys defaulting to zero (the
`From<HashMap<String, f64>>` step). -/
def transformFromString (radToDeg : ℚ → ℚ) (s : String) : Transform :=
  let m := transformTerms radToDeg s
  ⟨hashMapGetD m "x", hashMapGetD m "y", hashMapGetD m "z",
    hashMapGetD m "rx", hashMapGetD m "ry", hashMapGetD m "rz"⟩

/-- `FromRobot for Transform`: `Ok(res.into())` — decoding never fails. -/
def fromRobotTransform (radToDeg : ℚ → ℚ) (res : String) :
    Except String Transform :=
  .ok (transformFromString radToDeg res)

/-- One entry of a joint reply (the body of the source's `filter_map`
closure): the parsed value, or nothing when unparseable. -/
def jointTerm (t : List Char) : Option ℚ :=
  (parseF64 (String.mk t)).toOption

/-- `From<String> for JointCoord`: the characters from the first `[` to
before the first `]`, with brackets and spaces removed, split on commas;
the parseable entries, converted radians→degrees, fill `j1..j6`
positionally, missing entries defaulting to zero. -/
def jointFromString (radToDeg : ℚ → ℚ) (s : String) : JointCoord :=
  let body := ((s.data.dropWhile (fun c => c ≠ '[')).takeWhile
      (fun c => c ≠ ']')).filter
      (fun c => c ≠ '[' ∧ c ≠ ']' ∧ c ≠ ' ')
  JointCoord.ofList (((splitOnChar ',' body).filterMap jointTerm).map radToDeg)

/-- `FromRobot for JointCoord`: `Ok(res.into())` — decoding never fails. -/
def fromRobotJoint (radToDeg : ℚ → ℚ) (res : String) :
    Except String JointCoord :=
  .ok (jointFromString radToDeg res)

/-! ## The stack-based context machine of the specification (§4.2)

The newer revision in the tree replaced the explicit stack with the
borrow-chained RAII guards of src/context/mod.rs; the stack-based machine
the older contexts (`enter_fn`/`exit_fn`) were driven by is not in the
tree.  It is modelled from the spec here. -/

/-- Modelled from the spec (§7 `ContextStackError`): `NoContextToExit`,
plus the propagated failure of an operation's own enter/exit action. -/
inductive ContextStackError where
  | noContextToExit
  | opError (msg : String)
deriving DecidableEq, Repr

/-- Modelled from the spec (§3 `ContextEntry`): an opaque reversible
operation owning an enter action, an exit action and a label; both actions
may fail and both mutate the machine. -/
structure ContextEntry (M : Type) where
  enterAction : M → Except String Unit × M
  exitAction : M → Except String Unit × M
  label : String

/-- Modelled from the spec (§4.2): a machine instance with its ordered
stack of reversible operations, top at the head. -/
structure ContextMachine (M : Type) where
  inner : M
  stack : List (ContextEntry M)

namespace ContextMachine

/-- Modelled from the spec (§4.2 `enter(op)`): run `op.enter(machine)`;
only if this succeeds is `op` appended to the stack; on failure nothing is
pushed and the error propagates. -/
def enter {M : Type} (cm : ContextMachine M) (e : ContextEntry M) :
    Except ContextStackError Unit × ContextMachine M :=
  match e.enterAction cm.inner with
  | (.ok _, inner) => (.ok (), ⟨inner, e :: cm.stack⟩)
  | (.error s, inner) => (.error (.opError s), ⟨inner, cm.stack⟩)

/-- Modelled from the spec (§4.2 `exit()`): pop the top entry — fail with
`NoContextToExit` if the stack is empty — then run its `exit(machine)`; the
entry is removed regardless of whether the exit action fails
(fail-forward), and the exit action's error is still reported. -/
def exit {M : Type} (cm : ContextMachine M) :
    Except ContextStackError Unit × ContextMachine M :=
  match cm.stack with
  | [] => (.error .noContextToExit, cm)
  | e :: rest =>
    match e.exitAction cm.inner with
    | (.ok _, inner) => (.ok (), ⟨inner, rest⟩)
    | (.error s, inner) => (.error (.opError s), ⟨inner, rest⟩)

end ContextMachine

end InovoRs

/-! # Theorems -/

namespace InovoRs

/-! ## Clamping and the `MotionParam` range invariant -/

theorem rustClamp_mem (x lo hi : ℚ) (h : lo ≤ hi) :
    lo ≤ rustClamp x lo hi ∧ rustClamp x lo hi ≤ hi := by
  unfold rustClamp
  split
  · exact ⟨le_refl lo, h⟩
  · rename_i h1
    split
    · exact ⟨h, le_refl hi⟩
    · rename_i h2
      exact ⟨le_of_not_lt h1, le_of_not_lt h2⟩

theorem MotionParam.percent_le : MIN_PERCENT ≤ MAX_PERCENT := by
  norm_num [MIN_PERCENT, MAX_PERCENT]

theorem MotionParam.lenght_le : MIN_LENGHT ≤ MAX_LENGHT := by
  norm_num [MIN_LENGHT, MAX_LENGHT]

theorem MotionParam.angle_le : MIN_ANGLE ≤ MAX_ANGLE := by
  norm_num [MIN_ANGLE, MAX_ANGLE]

theorem MotionParam.clamp_inRange (p : MotionParam) : p.clamp.InRange := by
  unfold InRange clamp
  exact ⟨(rustClamp_mem p.speed _ _ percent_le).1,
    (rustClamp_mem p.speed _ _ percent_le).2,
    (rustClamp_mem p.accel _ _ percent_le).1,
    (rustClamp_mem p.accel _ _ percent_le).2,
    (rustClamp_mem p.blend_linear _ _ lenght_le).1,
    (rustClamp_mem p.blend_linear _ _ lenght_le).2,
    (rustClamp_mem p.blend_angular _ _ angle_le).1,
    (rustClamp_mem p.blend_angular _ _ angle_le).2,
    (rustClamp_mem p.tcp_speed_linear _ _ lenght_le).1,
    (rustClamp_mem p.tcp_speed_linear _ _ lenght_le).2,
    (rustClamp_mem p.tcp_speed_angular _ _ angle_le).1,
    (rustClamp_mem p.tcp_speed_angular _ _ angle_le).2⟩

/-- **C7.** MotionParam range invariant: for every input values (including
out-of-range ones), the constructor `new`, all six setters and the
`Default` constructor produce a `MotionParam` whose six fields each lie
within their fixed valid range (speed and accel in `[0.01, 100.0]`
percent, linear blend and linear speed limit in `[0.01, 1000.0]` mm,
angular blend and angular speed limit in `[0.001, 720.0]` deg); in
particular `set_speed 0` stores the minimum-percent value `0.01`, not
zero. -/
theorem motionParam_range_invariant :
    (∀ s a bl ba tl ta : ℚ, (MotionParam.new s a bl ba tl ta).InRange) ∧
    (∀ (p : MotionParam) (x : ℚ),
      (p.set_speed x).InRange ∧ (p.set_accel x).InRange ∧
      (p.set_blend_linear x).InRange ∧ (p.set_blend_angular x).InRange ∧
      (p.set_tcp_speed_linear x).InRange ∧
      (p.set_tcp_speed_angular x).InRange) ∧
    MotionParam.default.InRange ∧
    (∀ p : MotionParam,
      (p.set_speed 0).speed = MotionParam.MIN_PERCENT) := by
  refine ⟨fun s a bl ba tl ta => MotionParam.clamp_inRange _,
    fun p x => ⟨MotionParam.clamp_inRange _, MotionParam.clamp_inRange _,
      MotionParam.clamp_inRange _, MotionParam.clamp_inRange _,
      MotionParam.clamp_inRange _, MotionParam.clamp_inRange _⟩,
    MotionParam.clamp_inRange _, fun p => ?_⟩
  show rustClamp 0 MotionParam.MIN_PERCENT MotionParam.MAX_PERCENT =
    MotionParam.MIN_PERCENT
  norm_num [rustClamp, MotionParam.MIN_PERCENT, MotionParam.MAX_PERCENT]

/-! ## Joint-delta cancellation -/

/-- **C10.** Joint-delta cancellation: for every `JointCoord` `j` (all
components are rationals, hence finite), `j + (-j)` is the identity joint
coordinate (all six joints zero) and `-(-j) = j` — the algebraic fact that
makes the relative motion context's remembered negated delta an exact
inverse of the entered delta. -/
theorem jointCoord_neg_cancel :
    ∀ j : JointCoord, j + (-j) = JointCoord.identity ∧ -(-j) = j := by
  intro j
  cases j with
  | mk a b c d e f =>
    constructor
    · show JointCoord.add _ (JointCoord.neg _) = _
      simp [JointCoord.add, JointCoord.neg, JointCoord.identity,
        JointCoord.new]
    · show JointCoord.neg (JointCoord.neg _) = _
      simp [JointCoord.neg]

/-! ## The motion context (absolute-mode reversal) -/

/-- **C1.** For an absolute-mode motion context: if the machine's current
pose before enter is `P0` (its `frame` for a cartesian target, its joint
coordinate for a joint target), entering `MotionContext(AbsoluteLinear, p)`
snapshots `P0` via the current-pose capability of the kind matching the
target pose and sends `Motion(AbsoluteLinear, p)`; a subsequent exit sends
`Motion(AbsoluteLinear, P0)`. -/
theorem motionContext_absolute_linear_reversal :
    ∀ (tneg : Transform → Transform) (r : SimRobot) (p : Pose),
      ((MotionContext.enter_fn tneg (MotionContext.new .linear p) r).2.executed
          = r.executed ++ [.motion .linear p]) ∧
      ((MotionContext.enter_fn tneg (MotionContext.new .linear p) r).1.pose
          = (match p with
             | .joint _ => Pose.joint r.jointc
             | .transform _ => Pose.transform r.frame)) ∧
      ((MotionContext.exit_fn
          (MotionContext.enter_fn tneg (MotionContext.new .linear p) r).1
          (MotionContext.enter_fn tneg (MotionContext.new .linear p) r).2).2.executed
          = r.executed ++ [.motion .linear p,
              .motion .linear (match p with
                | .joint _ => Pose.joint r.jointc
                | .transform _ => Pose.transform r.frame)]) := by
  intro tneg r p
  cases p <;>
    simp [MotionContext.enter_fn, MotionContext.exit_fn, MotionContext.new,
      SimRobot.execute, SimRobot.current_joint, SimRobot.current_frame]

/-! ## The parameter context (LIFO stacking with default fallback) -/

/-- **C2.** Parameter stacking restores in LIFO order: starting from an
empty ParamStack, entering a `ParamContext` with param `a` pushes the
machine's default `MotionParam` first (so a later pop always has a
fallback) and transmits `SetParameter(a)`; entering another with param `b`
transmits `SetParameter(b)`; the first exit transmits `SetParameter(a)`
and the second exit transmits `SetParameter(machine default)`. -/
theorem paramContext_stacking_lifo :
    ∀ (r : SimRobot) (a b : MotionParam), r.paramStack = [] →
      ((ParamContext.enter_fn (ParamContext.new a) r).2.paramStack
          = [a, r.defaultParam]) ∧
      ((ParamContext.exit_fn (ParamContext.new a)
          (ParamContext.exit_fn (ParamContext.new b)
            (ParamContext.enter_fn (ParamContext.new b)
              (ParamContext.enter_fn (ParamContext.new a) r).2).2).2).2.executed
          = r.executed ++ [.param a, .param b, .param a,
              .param r.defaultParam]) ∧
      ((ParamContext.exit_fn (ParamContext.new a)
          (ParamContext.exit_fn (ParamContext.new b)
            (ParamContext.enter_fn (ParamContext.new b)
              (ParamContext.enter_fn (ParamContext.new a) r).2).2).2).2.paramStack
          = [r.defaultParam]) := by
  intro r a b h
  refine ⟨?_, ?_, ?_⟩ <;>
    simp [ParamContext.enter_fn, ParamContext.exit_fn, ParamContext.new,
      SimRobot.push_param, SimRobot.pop_param, SimRobot.execute, h]

/-- Witness for **C2** at a concrete machine: the empty-stack hypothesis
holds and the four transmitted `SetParameter` values are
`a`, `b`, `a`, `default`, in that order. -/
theorem paramContext_stacking_lifo_witness :
    (SimRobot.mk Transform.identity JointCoord.identity []
        MotionParam.default []).paramStack = [] ∧
    ((ParamContext.exit_fn (ParamContext.new (MotionParam.new 10 1 1 1 1 1))
        (ParamContext.exit_fn (ParamContext.new (MotionParam.new 20 1 1 1 1 1))
          (ParamContext.enter_fn (ParamContext.new (MotionParam.new 20 1 1 1 1 1))
            (ParamContext.enter_fn (ParamContext.new (MotionParam.new 10 1 1 1 1 1))
              (SimRobot.mk Transform.identity JointCoord.identity []
                MotionParam.default [])).2).2).2).2.executed
      = [] ++ [.param (MotionParam.new 10 1 1 1 1 1),
          .param (MotionParam.new 20 1 1 1 1 1),
          .param (MotionParam.new 10 1 1 1 1 1),
          .param MotionParam.default]) :=
  ⟨rfl, (paramContext_stacking_lifo
      (SimRobot.mk Transform.identity JointCoord.identity []
        MotionParam.default [])
      (MotionParam.new 10 1 1 1 1 1) (MotionParam.new 20 1 1 1 1 1)
      rfl).2.1⟩

/-! ## LIFO discipline of nested context guards -/

/-- **C3.** LIFO discipline: for every two contexts `A` (label `a`) and
`B` (label `b`), entering `A` then `B` and then exiting twice runs `B`'s
exit action strictly before `A`'s exit action — with `f` the work done
inside both guards and `g` the work done after the inner guard is closed
while the outer one is still open, the machine's event log becomes
`enter a, enter b, (f), exit b, (g), exit a`: closing the inner nested
guard exits only the inner operation. -/
theorem contextGuard_lifo_order :
    ∀ (a b : ℕ) (f g : List CtxEvent → List CtxEvent) (m : List CtxEvent),
      ContextGuard.run (logCtx a) ()
          (fun m1 => g (ContextGuard.run (logCtx b) () f m1)) m
        = g (f (m ++ [.enter a, .enter b]) ++ [.exits b]) ++ [.exits a] := by
  intro a b f g m
  simp [ContextGuard.run, logCtx]

/-! ## Teardown of an `IvaContext` guard -/

/-- **C5 (amended).** Fail-forward on teardown, as the tree implements it:
when an `IvaContext` guard's scope ends, `context_drop` runs exactly once —
the guard entry is consumed and never re-run, leaving no zombie — and the
machine state is whatever the `Pop` round trip left behind; but the
`Result` of that round trip is discarded by `let _ = machine.pop();`, so a
teardown error is **not** reported to the caller. -/
theorem ivaContext_drop_fail_forward :
    ∀ (b : IvaBot) (body : IvaBot → IvaBot),
      ContextGuard.run ivaContext () body b = (IvaBot.pop (body b)).2 := by
  intro b body
  rfl

/-- **C5 counterexample.** On a machine whose reply to `Pop` is `"BAD"`,
the pop fails with `ResponseError "BAD"`, yet the guard's scope completes
and yields only the mutated machine: the teardown error has been silently
swallowed, contradicting the claim that it is still reported to the
caller. -/
theorem ivaContext_drop_swallows_error :
    (IvaBot.pop ⟨["BAD"], []⟩).1
        = .error (.responseError "BAD") ∧
      ContextGuard.run ivaContext () id ⟨["BAD"], []⟩
        = ⟨[], [.pop]⟩ := by
  constructor <;> rfl

/-! ## Exiting with an empty context stack -/

/-- **C6.** Calling `exit()` on a machine whose context stack is empty
returns the typed error `NoContextToExit` (an `Except` error value, not a
panic), and the machine state is unchanged. -/
theorem contextMachine_exit_empty :
    ∀ (M : Type) (cm : ContextMachine M), cm.stack = [] →
      cm.exit = (.error .noContextToExit, cm) := by
  intro M cm h
  obtain ⟨inner, stack⟩ := cm
  simp only at h
  subst h
  rfl

/-! ## The command sequencer -/

theorem IvaBot.sequenceIter_ok_iff :
    ∀ (cs : List RobotCommand) (b : IvaBot),
      (b.sequenceIter cs).1 = .ok () ↔
        b.replies.take (cs.length + 1)
          = List.replicate (cs.length + 1) "OK" := by
  intro cs
  induction cs with
  | nil =>
    intro b
    cases hrep : b.replies with
    | nil =>
      simp [IvaBot.sequenceIter, IvaBot.dequeue, IvaBot.instruction_assert_ok,
        IvaBot.instruction, hrep]
    | cons r rs =>
      by_cases hr : r = "OK" <;>
        simp [IvaBot.sequenceIter, IvaBot.dequeue, IvaBot.instruction_assert_ok,
          IvaBot.instruction, hrep, hr]
  | cons c rest ih =>
    intro b
    cases hrep : b.replies with
    | nil =>
      simp [IvaBot.sequenceIter, IvaBot.enqueue, IvaBot.instruction_assert_ok,
        IvaBot.instruction, hrep]
    | cons r rs =>
      by_cases hr : r = "OK"
      · simp [IvaBot.sequenceIter, IvaBot.enqueue, IvaBot.instruction_assert_ok,
          IvaBot.instruction, hrep, hr, ih, List.replicate_succ]
      · simp [IvaBot.sequenceIter, IvaBot.enqueue, IvaBot.instruction_assert_ok,
          IvaBot.instruction, hrep, hr, List.replicate_succ]

theorem IvaBot.sequenceIter_ok_sent :
    ∀ (cs : List RobotCommand) (b : IvaBot),
      (b.sequenceIter cs).1 = .ok () →
      (b.sequenceIter cs).2.sent
        = b.sent ++ cs.map Instruction.enqueue ++ [.dequeue] := by
  intro cs
  induction cs with
  | nil =>
    intro b hok
    cases hrep : b.replies with
    | nil =>
      rw [show (IvaBot.sequenceIter b []).1 = .error (.socketError "connection closed")
        by simp [IvaBot.sequenceIter, IvaBot.dequeue, IvaBot.instruction_assert_ok,
          IvaBot.instruction, hrep]] at hok
      exact absurd hok (by simp)
    | cons r rs =>
      by_cases hr : r = "OK"
      · simp [IvaBot.sequenceIter, IvaBot.dequeue, IvaBot.instruction_assert_ok,
          IvaBot.instruction, hrep, hr]
      · rw [show (IvaBot.sequenceIter b []).1 = .error (.responseError r)
          by simp [IvaBot.sequenceIter, IvaBot.dequeue, IvaBot.instruction_assert_ok,
            IvaBot.instruction, hrep, hr]] at hok
        exact absurd hok (by simp)
  | cons c rest ih =>
    intro b hok
    cases hrep : b.replies with
    | nil =>
      rw [show (IvaBot.sequenceIter b (c :: rest)).1
          = .error (.socketError "connection closed")
        by simp [IvaBot.sequenceIter, IvaBot.enqueue, IvaBot.instruction_assert_ok,
          IvaBot.instruction, hrep]] at hok
      exact absurd hok (by simp)
    | cons r rs =>
      by_cases hr : r = "OK"
      · have hstep : IvaBot.sequenceIter b (c :: rest)
            = IvaBot.sequenceIter ⟨rs, b.sent ++ [.enqueue c]⟩ rest := by
          simp [IvaBot.sequenceIter, IvaBot.enqueue, IvaBot.instruction_assert_ok,
            IvaBot.instruction, hrep, hr]
        rw [hstep] at hok ⊢
        rw [ih _ hok]
        simp
      · rw [show (IvaBot.sequenceIter b (c :: rest)).1 = .error (.responseError r)
          by simp [IvaBot.sequenceIter, IvaBot.enqueue, IvaBot.instruction_assert_ok,
            IvaBot.instruction, hrep, hr]] at hok
        exact absurd hok (by simp)

theorem IvaBot.sequenceIter_fail_at :
    ∀ (k : ℕ) (cs : List RobotCommand) (r : String) (tail : List String)
      (b : IvaBot),
      b.replies = List.replicate k "OK" ++ r :: tail → r ≠ "OK" →
      k < cs.length →
      b.sequenceIter cs = (.error (.responseError r),
        ⟨tail, b.sent ++ (cs.take (k + 1)).map Instruction.enqueue⟩) := by
  intro k
  induction k with
  | zero =>
    intro cs r tail b hrep hr hk
    cases cs with
    | nil => simp at hk
    | cons c rest =>
      simp only [List.replicate, List.nil_append] at hrep
      simp [IvaBot.sequenceIter, IvaBot.enqueue, IvaBot.instruction_assert_ok,
        IvaBot.instruction, hrep, hr]
  | succ k ih =>
    intro cs r tail b hrep hr hk
    cases cs with
    | nil => simp at hk
    | cons c rest =>
      rw [List.replicate_succ, List.cons_append] at hrep
      have hstep : IvaBot.sequenceIter b (c :: rest)
          = IvaBot.sequenceIter
              ⟨List.replicate k "OK" ++ r :: tail, b.sent ++ [.enqueue c]⟩
              rest := by
        simp [IvaBot.sequenceIter, IvaBot.enqueue, IvaBot.instruction_assert_ok,
          IvaBot.instruction, hrep]
      rw [hstep, ih rest r tail _ rfl hr (by simpa using hk)]
      simp [List.take_succ_cons]

/-- **C4.** For every `CommandSequence` of commands `cs`, a `sequence`
send succeeds exactly when the next `cs.length + 1` replies are all the
acknowledgment `"OK"`; a successful send writes exactly one `Enqueue` per
command, in sequence order, followed by exactly one `Dequeue`; and if the
`k`-th Enqueue acknowledgment fails (reply `r ≠ "OK"` after `k` `"OK"`s),
no further Enqueue and no Dequeue is written — exactly the first `k + 1`
Enqueues are on the wire — and that `ResponseError` is returned to the
caller. -/
theorem sequencer_enqueue_then_dequeue :
    (∀ (b : IvaBot) (cs : CommandSequence),
      (b.sequence cs).1 = .ok () ↔
        b.replies.take (cs.into_iter.length + 1)
          = List.replicate (cs.into_iter.length + 1) "OK") ∧
    (∀ (b : IvaBot) (cs : CommandSequence),
      (b.sequence cs).1 = .ok () →
      (b.sequence cs).2.sent
        = b.sent ++ cs.into_iter.map Instruction.enqueue ++ [.dequeue]) ∧
    (∀ (b : IvaBot) (cs : CommandSequence) (k : ℕ) (r : String)
       (tail : List String),
      b.replies = List.replicate k "OK" ++ r :: tail → r ≠ "OK" →
      k < cs.into_iter.length →
      b.sequence cs = (.error (.responseError r),
        ⟨tail, b.sent ++ (cs.into_iter.take (k + 1)).map
          Instruction.enqueue⟩)) :=
  ⟨fun b cs => IvaBot.sequenceIter_ok_iff cs.into_iter b,
   fun b cs => IvaBot.sequenceIter_ok_sent cs.into_iter b,
   fun b cs k r tail => IvaBot.sequenceIter_fail_at k cs.into_iter r tail b⟩

/-- Witness for **C4**: with three `"OK"` replies, sequencing two commands
writes `Enqueue, Enqueue, Dequeue`; with replies `"OK", "ERR"`, the second
Enqueue acknowledgment fails, exactly two Enqueues and no Dequeue are on
the wire, and `ResponseError "ERR"` is returned. -/
theorem sequencer_enqueue_then_dequeue_witness :
    ((IvaBot.mk ["OK", "OK", "OK"] []).sequence
        (CommandSequence.new.then_sync.then_sleep 1)).1 = .ok () ∧
    ((IvaBot.mk ["OK", "OK", "OK"] []).sequence
        (CommandSequence.new.then_sync.then_sleep 1)).2.sent
      = [] ++ (CommandSequence.new.then_sync.then_sleep 1).into_iter.map
          Instruction.enqueue ++ [.dequeue] ∧
    (IvaBot.mk ["OK", "ERR"] []).replies
      = List.replicate 1 "OK" ++ "ERR" :: [] ∧
    ("ERR" : String) ≠ "OK" ∧
    (1 : ℕ) < (CommandSequence.new.then_sync.then_sleep 1).into_iter.length ∧
    (IvaBot.mk ["OK", "ERR"] []).sequence
        (CommandSequence.new.then_sync.then_sleep 1)
      = (.error (.responseError "ERR"),
        ⟨[], [] ++ (((CommandSequence.new.then_sync.then_sleep 1).into_iter.take
          2).map Instruction.enqueue)⟩) :=
  ⟨rfl, sequencer_enqueue_then_dequeue.2.1 _ _ rfl,
   rfl, by decide, by decide,
   sequencer_enqueue_then_dequeue.2.2 (IvaBot.mk ["OK", "ERR"] [])
     (CommandSequence.new.then_sync.then_sleep 1) 1 "ERR" [] rfl
     (by decide) (by decide)⟩

/-! ## Scalar decoding -/

theorem charToNat_0 : '0'.toNat = 48 := rfl

theorem charToNat_1 : '1'.toNat = 49 := rfl

theorem charToNat_2 : '2'.toNat = 50 := rfl

theorem charToNat_3 : '3'.toNat = 51 := rfl

theorem charToNat_5 : '5'.toNat = 53 := rfl

theorem charToNat_9 : '9'.toNat = 57 := rfl

theorem parseF64_threePointFive : parseF64 "3.5" = .ok (7 / 2 : ℚ) := by
  norm_num +decide [parseF64, stripSign, parseDecimal, parseExponent,
    digitsToNat, charToNat_0, charToNat_3, charToNat_5]

/-- **C8 (amended).** Scalar decoding: for every reply string, decoding to
bool yields `true` exactly when the reply is the literal `"True"` and
`false` exactly when it is the literal `"False"`; decoding to a number
uses standard decimal parsing (`"3.5"` decodes to `3.5`); any other input
fails with a `ResponseError`, whose payload for a bool decode embeds the
raw text (`"unexpected response: {raw}"`) but for a numeric decode is the
standard parser's own message (e.g. `"invalid digit found in string"`),
which does not contain the raw text. -/
theorem decodeScalar_literals :
    (∀ s : String, fromRobotBool s = .ok true ↔ s = "True") ∧
    (∀ s : String, fromRobotBool s = .ok false ↔ s = "False") ∧
    parseF64 "3.5" = .ok (7 / 2 : ℚ) ∧
    (∀ s : String, s ≠ "True" → s ≠ "False" →
      fromRobotBool s = .error ("unexpected response: " ++ s)) ∧
    fromRobotI64 "abc" = .error "invalid digit found in string" := by
  refine ⟨fun s => ?_, fun s => ?_, parseF64_threePointFive,
    fun s h1 h2 => ?_, rfl⟩ <;>
    by_cases h1 : s = "True" <;> by_cases h2 : s = "False" <;>
      simp_all [fromRobotBool]

/-- Witness for **C8 (amended)** at the concrete reply `"Maybe"`: it is
neither boolean literal and decodes to the error embedding the raw text. -/
theorem decodeScalar_literals_witness :
    ("Maybe" : String) ≠ "True" ∧ ("Maybe" : String) ≠ "False" ∧
    fromRobotBool "Maybe" = .error ("unexpected response: " ++ "Maybe") :=
  ⟨by decide, by decide,
    decodeScalar_literals.2.2.2.1 "Maybe" (by decide) (by decide)⟩

/-- **C8 counterexample.** The claim says a failed scalar decode carries
the raw text; decoding the reply `"abc"` as `i64` through
`instruction_return` yields `ResponseError "invalid digit found in
string"`, and the raw text `"abc"` occurs nowhere in that payload. -/
theorem decodeScalar_error_lacks_raw :
    (IvaBot.instruction_return (IvaBot.mk ["abc"] []) fromRobotI64
        (.get (.data "n"))).1
      = .error (.responseError "invalid digit found in string") ∧
    ¬ "abc".data <:+: "invalid digit found in string".data :=
  ⟨rfl, by decide⟩

/-! ## Pose decoding -/

theorem transformTerm_bare_r (f : ℚ → ℚ) :
    transformTerm f ['r'] = none := by
  norm_num +decide [transformTerm, splitOnChar]

theorem transformTerm_x (f : ℚ → ℚ) :
    transformTerm f ['x', ':', '0', '.', '1'] = some ("x", 100) := by
  norm_num +decide [transformTerm, splitOnChar, parseF64, stripSign,
    parseDecimal, parseExponent, digitsToNat, Except.toOption,
    charToNat_0, charToNat_1]

theorem transformTerm_rx (f : ℚ → ℚ) :
    transformTerm f ['r', 'x', ':', '0', '.', '5']
      = some ("rx", f (1 / 2)) := by
  norm_num +decide [transformTerm, splitOnChar, parseF64, stripSign,
    parseDecimal, parseExponent, digitsToNat, Except.toOption,
    charToNat_0, charToNat_5]

theorem transformTerm_foo (f : ℚ → ℚ) :
    transformTerm f ['f', 'o', 'o', ':', '9'] = some ("foo", 9000) := by
  norm_num +decide [transformTerm, splitOnChar, parseF64, stripSign,
    parseDecimal, parseExponent, digitsToNat, Except.toOption,
    charToNat_0, charToNat_9]

theorem jointTerm_half : jointTerm ['0', '.', '5'] = some (1 / 2 : ℚ) := by
  norm_num +decide [jointTerm, parseF64, stripSign, parseDecimal,
    parseExponent, digitsToNat, Except.toOption, charToNat_0, charToNat_5]

theorem jointTerm_two : jointTerm ['2'] = some (2 : ℚ) := by
  norm_num +decide [jointTerm, parseF64, stripSign, parseDecimal,
    parseExponent, digitsToNat, Except.toOption, charToNat_0, charToNat_2]

/-- **C9 (amended).** Pose decoding is total and never reports an error:
`FromRobot` for both pose kinds always returns `Ok`.  For a transform
reply, the decoder reads `key:value` terms from the portion of the reply
between the first `r` character and the first closing brace, keeps the
fixed key set `x,y,z,rx,ry,rz`, converts lengths metres→millimetres
(×1000) and `r`-keys radians→degrees, ignores unknown keys and defaults
missing keys to zero — as shown on a reply carrying `x:0.1`, `rx:0.5` and
the unknown key `foo`.  For a joint reply, values are read positionally
from the first bracketed comma list (not a `j1..j6` key set), unparseable
entries are skipped, and missing entries default to zero.  A malformed
structure does not fail with `ResponseParseError`: it decodes to default
(zero) fields. -/
theorem decodePose_keys_units_total :
    ∀ f : ℚ → ℚ,
      (∀ s, fromRobotTransform f s = .ok (transformFromString f s)) ∧
      transformFromString f "r,x:0.1,rx:0.5,foo:9"
        = ⟨100, 0, 0, f (1 / 2), 0, 0⟩ ∧
      (∀ s, fromRobotJoint f s = .ok (jointFromString f s)) ∧
      jointFromString f "[0.5,2]" = ⟨f (1 / 2), f 2, 0, 0, 0, 0⟩ := by
  intro f
  refine ⟨fun s => rfl, ?_, fun s => rfl, ?_⟩
  · simp +decide [transformFromString, transformTerms, splitOnChar,
      transformTerm_bare_r, transformTerm_x, transformTerm_rx,
      transformTerm_foo, hashMapGetD]
  · simp +decide [jointFromString, splitOnChar, jointTerm_half,
      jointTerm_two, JointCoord.ofList]

/-- **C9 counterexample.** On the malformed reply `"garbage"` the claim
demands a `ResponseParseError`; both pose decoders instead succeed,
returning the all-zero pose. -/
theorem decodePose_malformed_no_error :
    fromRobotTransform (fun q => q) "garbage" = .ok Transform.identity ∧
    fromRobotJoint (fun q => q) "garbage" = .ok JointCoord.identity :=
  ⟨rfl, rfl⟩

/-- Witness for **C6** at a concrete machine over `ℕ`. -/
theorem contextMachine_exit_empty_witness :
    (ContextMachine.mk (0 : ℕ) []).stack = [] ∧
      (ContextMachine.mk (0 : ℕ) []).exit
        = (.error .noContextToExit, ContextMachine.mk (0 : ℕ) []) :=
  ⟨rfl, contextMachine_exit_empty ℕ (ContextMachine.mk 0 []) rfl⟩

end InovoRs
